import Mathlib

/-
  Shallow embedding of `src/hvpp/hvpp/vcpu_vmcs.cpp` (the VMCS accessor and
  event-injection layer of the hvpp hypervisor), together with models of the
  small external interfaces it consumes (the VMCS primitive read/write layer,
  the capability-adjustment primitive, and the interruption-information bit
  layout), which are declared outside the shown source and are therefore
  modelled from the specification.
-/

namespace HvppVmcs

/-- The VMCS field identifiers used by `vcpu_vmcs.cpp` (`vmx::vmcs::field`).
The enumeration is treated as an opaque key set; the numeric hardware
encodings are irrelevant to the properties proved here. -/
inductive Field
  | ctrl_pin_based_vm_execution_controls
  | ctrl_processor_based_vm_execution_controls
  | ctrl_secondary_processor_based_vm_execution_controls
  | ctrl_vmentry_controls
  | ctrl_vmexit_controls
  | ctrl_exception_bitmap
  | ctrl_msr_bitmap_address
  | ctrl_io_bitmap_a_address
  | ctrl_io_bitmap_b_address
  | ctrl_pagefault_error_code_mask
  | ctrl_pagefault_error_code_match
  | ctrl_vmentry_instruction_length
  | ctrl_vmentry_interruption_info
  | ctrl_vmentry_exception_error_code
  | ctrl_cr0_read_shadow
  | ctrl_cr4_read_shadow
  | vmexit_instruction_error
  | vmexit_instruction_info
  | vmexit_instruction_length
  | vmexit_interruption_info
  | vmexit_interruption_error_code
  | vmexit_reason
  | vmexit_qualification
  | vmexit_guest_physical_address
  | vmexit_guest_linear_address
  | guest_cr0
  | guest_cr3
  | guest_cr4
  | guest_dr7
  | guest_debugctl
  | guest_rsp
  | guest_rip
  | guest_rflags
  | guest_gdtr_base
  | guest_gdtr_limit
  | guest_idtr_base
  | guest_idtr_limit
  | guest_cs_base
  | guest_cs_limit
  | guest_cs_access_rights
  | guest_cs_selector
  | guest_ds_base
  | guest_ds_limit
  | guest_ds_access_rights
  | guest_ds_selector
  | guest_es_base
  | guest_es_limit
  | guest_es_access_rights
  | guest_es_selector
  | guest_fs_base
  | guest_fs_limit
  | guest_fs_access_rights
  | guest_fs_selector
  | guest_gs_base
  | guest_gs_limit
  | guest_gs_access_rights
  | guest_gs_selector
  | guest_ss_base
  | guest_ss_limit
  | guest_ss_access_rights
  | guest_ss_selector
  | guest_tr_base
  | guest_tr_limit
  | guest_tr_access_rights
  | guest_tr_selector
  | guest_ldtr_base
  | guest_ldtr_limit
  | guest_ldtr_access_rights
  | guest_ldtr_selector
  | host_cr0
  | host_cr3
  | host_cr4
  | host_rsp
  | host_rip
  | host_gdtr_base
  | host_idtr_base
  | host_cs_selector
  | host_ds_selector
  | host_es_selector
  | host_ss_selector
  | host_fs_selector
  | host_fs_base
  | host_gs_selector
  | host_gs_base
  | host_tr_selector
  | host_tr_base
  deriving DecidableEq

/-- The active VMCS, viewed through the primitive layer: a value per field.
Field values are natural numbers; each C++ accessor reads/writes a value of
its field's architectural width, and no arithmetic in this layer overflows. -/
def Vmcs : Type := Field → Nat

namespace vmx

/-- Modelled from the spec: the primitive field-indexed read over the active
control structure (`vmx::vmread`). -/
def vmread (s : Vmcs) (f : Field) : Nat := s f

/-- Modelled from the spec: the primitive field-indexed write over the active
control structure (`vmx::vmwrite`). -/
def vmwrite (f : Field) (v : Nat) (s : Vmcs) : Vmcs :=
  fun g => if g = f then v else s g

@[simp]
theorem vmread_vmwrite (f g : Field) (v : Nat) (s : Vmcs) :
    vmread (vmwrite f v s) g = if g = f then v else vmread s g := rfl

/-- A pair of hardware-reported capability masks for one adjustable control
group: `allowed0` has a 1 in every hardware-mandatory-1 bit position, and
`allowed1` has a 0 in every hardware-mandatory-0 bit position. -/
structure vmx_capability where
  allowed0 : Nat
  allowed1 : Nat
  deriving DecidableEq

/-- Modelled from the spec: the capability-adjustment primitive
(`vmx::adjust`), which forces every hardware-mandatory-1 bit set and every
hardware-mandatory-0 bit cleared in a requested control value. -/
def adjust (cap : vmx_capability) (v : Nat) : Nat :=
  (v ||| cap.allowed0) &&& cap.allowed1

/-- Modelled from the spec: the interruption-information encoding is a 32-bit
word with the vector in bits 7:0. -/
def interrupt_info_vector (w : Nat) : Nat := w % 256

/-- Modelled from the spec: the interruption type sits in bits 10:8 of the
interruption-information word. -/
def interrupt_info_type (w : Nat) : Nat := (w >>> 8) % 8

/-- Modelled from the spec: the error-code-valid flag is bit 11 of the
interruption-information word. -/
def interrupt_info_error_code_valid (w : Nat) : Bool := w.testBit 11

/-- Modelled from the spec: the valid flag is bit 31 of the
interruption-information word. -/
def interrupt_info_valid (w : Nat) : Bool := w.testBit 31

/-- Modelled from the spec: the interruption-type encodings dictated by
hardware (0=external, 2=non-maskable-interrupt, 3=hardware_exception,
4=software, 5=privileged_exception, 6=software_exception, 7=other_event). -/
def interrupt_type_external : Nat := 0

def interrupt_type_nmi : Nat := 2

def interrupt_type_hardware_exception : Nat := 3

def interrupt_type_software : Nat := 4

def interrupt_type_privileged_exception : Nat := 5

def interrupt_type_software_exception : Nat := 6

def interrupt_type_other_event : Nat := 7

end vmx

namespace exception_vector

/-- Architectural exception vector numbers (named in `vcpu::inject`). -/
def double_fault : Nat := 8

def invalid_tss : Nat := 10

def segment_not_present : Nat := 11

def stack_segment_fault : Nat := 12

def general_protection : Nat := 13

def page_fault : Nat := 14

def alignment_check : Nat := 17

end exception_vector

/-- Conversion of an unsigned 32-bit value to a signed 32-bit integer (the
`static_cast<int>` applied to `exit_instruction_length()` in `vcpu::inject`). -/
def castInt32 (n : Nat) : Int :=
  if n % 2 ^ 32 < 2 ^ 31 then ((n % 2 ^ 32 : Nat) : Int)
  else ((n % 2 ^ 32 : Nat) : Int) - 2 ^ 32

/-- Modelled from the spec: the Interrupt/Exception Descriptor
(`hvpp::interrupt_info`, declared outside the shown source): the raw 32-bit
interruption-information word `info_`, the 32-bit error code `error_code_`
(its `.flags` member is the raw value), and the signed `rip_adjust_` whose
sentinel -1 means unspecified. -/
structure interrupt_info_t where
  info_ : Nat
  error_code_ : Nat
  rip_adjust_ : Int
  deriving DecidableEq

namespace interrupt_info_t

/-- Modelled from the spec: `interrupt_info::valid()` reads the valid bit of
the interruption-information word. -/
def valid (i : interrupt_info_t) : Bool := vmx.interrupt_info_valid i.info_

/-- Modelled from the spec: `interrupt_info::vector()` reads bits 7:0. -/
def vector (i : interrupt_info_t) : Nat := vmx.interrupt_info_vector i.info_

/-- Modelled from the spec: `interrupt_info::type()` reads bits 10:8. -/
def type (i : interrupt_info_t) : Nat := vmx.interrupt_info_type i.info_

/-- Modelled from the spec: `interrupt_info::error_code_valid()` reads bit 11
of the interruption-information word. -/
def error_code_valid (i : interrupt_info_t) : Bool :=
  vmx.interrupt_info_error_code_valid i.info_

/-- Modelled from the spec: `interrupt_info::error_code()` returns the stored
error-code member. -/
def error_code (i : interrupt_info_t) : Nat := i.error_code_

end interrupt_info_t

/-- Modelled from the spec: the contents of the fixed-size MSR bitmap
(`vmx::msr_bitmap`), kept abstract as a single value. -/
structure msr_bitmap_t where
  data : Nat
  deriving DecidableEq

/-- Modelled from the spec: the contents of the fixed-size IO bitmap
(`vmx::io_bitmap`), split into its two architectural halves `a` and `b`. -/
structure io_bitmap_t where
  a : Nat
  b : Nat
  deriving DecidableEq

/-- A generic segment-state record (`seg_t`): the per-role nominal types of
the source share exactly these fields. -/
structure seg_t where
  selector : Nat
  base_address : Nat
  limit : Nat
  access : Nat
  deriving DecidableEq

/-- A descriptor-table register (`gdtr_t`/`idtr_t`). -/
structure gdtr_t where
  base_address : Nat
  limit : Nat
  deriving DecidableEq

/-- The segment selector's index field is bits 15:3 of the 16-bit selector
(below it sit the table-indicator bit and the two privilege bits). -/
def selector_index (sel : Nat) : Nat := (sel >>> 3) % 2 ^ 13

/-- Modelled from the spec: the capability masks for the four adjustable
control groups, each hardware-reported via model-specific registers. -/
structure HwCaps where
  pinbased : vmx.vmx_capability
  procbased : vmx.vmx_capability
  entry_ctls : vmx.vmx_capability
  exit_ctls : vmx.vmx_capability
  deriving DecidableEq

/-- Modelled from the spec: the bit position of the "use IO bitmaps" member
of the primary processor-based execution controls. -/
def use_io_bitmaps_bit : Nat := 25

/-- The virtual-CPU instance state visible to `vcpu_vmcs.cpp`: the active
VMCS, the owned MSR/IO bitmap storage, and the one-shot RIP-adjust
suppression flag. The `_pa` fields are the (fixed, per-instance) physical
addresses of the owned bitmap storage, i.e. the values `pa_t::from_va`
returns for them. -/
structure vcpu where
  vmcs : Vmcs
  msr_bitmap_ : msr_bitmap_t
  io_bitmap_ : io_bitmap_t
  suppress_rip_adjust_ : Bool
  msr_bitmap_pa : Nat
  io_bitmap_a_pa : Nat
  io_bitmap_b_pa : Nat

namespace vcpu

-- ## control state

def pin_based_controls (s : vcpu) : Nat :=
  vmx.vmread s.vmcs Field.ctrl_pin_based_vm_execution_controls

def set_pin_based_controls (caps : HwCaps) (s : vcpu) (controls : Nat) : vcpu :=
  let v := vmx.adjust caps.pinbased controls
  { s with vmcs := vmx.vmwrite Field.ctrl_pin_based_vm_execution_controls v s.vmcs }

def processor_based_controls (s : vcpu) : Nat :=
  vmx.vmread s.vmcs Field.ctrl_processor_based_vm_execution_controls

def set_processor_based_controls (caps : HwCaps) (s : vcpu) (controls : Nat) : vcpu :=
  let v := vmx.adjust caps.procbased controls
  { s with vmcs := vmx.vmwrite Field.ctrl_processor_based_vm_execution_controls v s.vmcs }

def processor_based_controls2 (s : vcpu) : Nat :=
  vmx.vmread s.vmcs Field.ctrl_secondary_processor_based_vm_execution_controls

def set_processor_based_controls2 (s : vcpu) (controls : Nat) : vcpu :=
  { s with vmcs := vmx.vmwrite Field.ctrl_secondary_processor_based_vm_execution_controls controls s.vmcs }

def vm_entry_controls (s : vcpu) : Nat :=
  vmx.vmread s.vmcs Field.ctrl_vmentry_controls

def set_vm_entry_controls (caps : HwCaps) (s : vcpu) (controls : Nat) : vcpu :=
  let v := vmx.adjust caps.entry_ctls controls
  { s with vmcs := vmx.vmwrite Field.ctrl_vmentry_controls v s.vmcs }

def vm_exit_controls (s : vcpu) : Nat :=
  vmx.vmread s.vmcs Field.ctrl_vmexit_controls

def set_vm_exit_controls (caps : HwCaps) (s : vcpu) (controls : Nat) : vcpu :=
  let v := vmx.adjust caps.exit_ctls controls
  { s with vmcs := vmx.vmwrite Field.ctrl_vmexit_controls v s.vmcs }

def exception_bitmap (s : vcpu) : Nat :=
  vmx.vmread s.vmcs Field.ctrl_exception_bitmap

def set_exception_bitmap (s : vcpu) (v : Nat) : vcpu :=
  { s with vmcs := vmx.vmwrite Field.ctrl_exception_bitmap v s.vmcs }

def msr_bitmap (s : vcpu) : msr_bitmap_t := s.msr_bitmap_

def set_msr_bitmap (s : vcpu) (b : msr_bitmap_t) : vcpu :=
  let s1 := { s with msr_bitmap_ := b }
  { s1 with vmcs := vmx.vmwrite Field.ctrl_msr_bitmap_address s1.msr_bitmap_pa s1.vmcs }

def io_bitmap (s : vcpu) : io_bitmap_t := s.io_bitmap_

def set_io_bitmap (caps : HwCaps) (s : vcpu) (b : io_bitmap_t) : vcpu :=
  let s1 := { s with io_bitmap_ := b }
  let procbased_ctls := processor_based_controls s1
  let procbased_ctls := procbased_ctls ||| 2 ^ use_io_bitmaps_bit
  let s2 := set_processor_based_controls caps s1 procbased_ctls
  let s3 := { s2 with vmcs := vmx.vmwrite Field.ctrl_io_bitmap_a_address s2.io_bitmap_a_pa s2.vmcs }
  { s3 with vmcs := vmx.vmwrite Field.ctrl_io_bitmap_b_address s3.io_bitmap_b_pa s3.vmcs }

def pagefault_error_code_mask (s : vcpu) : Nat :=
  vmx.vmread s.vmcs Field.ctrl_pagefault_error_code_mask

def set_pagefault_error_code_mask (s : vcpu) (v : Nat) : vcpu :=
  { s with vmcs := vmx.vmwrite Field.ctrl_pagefault_error_code_mask v s.vmcs }

def pagefault_error_code_match (s : vcpu) : Nat :=
  vmx.vmread s.vmcs Field.ctrl_pagefault_error_code_match

def set_pagefault_error_code_match (s : vcpu) (v : Nat) : vcpu :=
  { s with vmcs := vmx.vmwrite Field.ctrl_pagefault_error_code_match v s.vmcs }

-- ## control entry state

def entry_instruction_length (s : vcpu) : Nat :=
  vmx.vmread s.vmcs Field.ctrl_vmentry_instruction_length

def set_entry_instruction_length (s : vcpu) (v : Nat) : vcpu :=
  { s with vmcs := vmx.vmwrite Field.ctrl_vmentry_instruction_length v s.vmcs }

def entry_interruption_info (s : vcpu) : Nat :=
  vmx.vmread s.vmcs Field.ctrl_vmentry_interruption_info

def set_entry_interruption_info (s : vcpu) (v : Nat) : vcpu :=
  { s with vmcs := vmx.vmwrite Field.ctrl_vmentry_interruption_info v s.vmcs }

def entry_interruption_error_code (s : vcpu) : Nat :=
  vmx.vmread s.vmcs Field.ctrl_vmentry_exception_error_code

def set_entry_interruption_error_code (s : vcpu) (v : Nat) : vcpu :=
  { s with vmcs := vmx.vmwrite Field.ctrl_vmentry_exception_error_code v s.vmcs }

-- ## exit state (read-only accessors)

def exit_instruction_length (s : vcpu) : Nat :=
  vmx.vmread s.vmcs Field.vmexit_instruction_length

def exit_interruption_info (s : vcpu) : Nat :=
  vmx.vmread s.vmcs Field.vmexit_interruption_info

def exit_interruption_error_code (s : vcpu) : Nat :=
  vmx.vmread s.vmcs Field.vmexit_interruption_error_code

def suppress_rip_adjust (s : vcpu) : vcpu :=
  { s with suppress_rip_adjust_ := true }

/-- `vcpu::inject`, translated line-for-line from the source. The `Bool`
component records whether every `hvpp_assert` contract check held (`false`
means a debug build aborts at that assertion); the `vcpu` component is the
state produced by the writes, which in a release build proceed past a failed
assertion unchanged. -/
def inject (s : vcpu) (interrupt : interrupt_info_t) : vcpu × Bool :=
  let s1 := set_entry_interruption_info s interrupt.info_
  if interrupt.valid = true then
    let step2 : vcpu × Bool :=
      if interrupt.type = vmx.interrupt_type_hardware_exception then
        if interrupt.vector = exception_vector.invalid_tss ∨
           interrupt.vector = exception_vector.segment_not_present ∨
           interrupt.vector = exception_vector.stack_segment_fault ∨
           interrupt.vector = exception_vector.general_protection ∨
           interrupt.vector = exception_vector.page_fault then
          (set_entry_interruption_error_code s1 interrupt.error_code,
           interrupt.error_code_valid)
        else if interrupt.vector = exception_vector.double_fault ∨
                interrupt.vector = exception_vector.alignment_check then
          (set_entry_interruption_error_code s1 interrupt.error_code,
           interrupt.error_code_valid && decide (interrupt.error_code = 0))
        else (s1, true)
      else (s1, true)
    let s2 := step2.1
    if interrupt.type = vmx.interrupt_type_software ∨
       interrupt.type = vmx.interrupt_type_privileged_exception ∨
       interrupt.type = vmx.interrupt_type_software_exception then
      let rip_adjust : Int :=
        if interrupt.rip_adjust_ = -1 then castInt32 (exit_instruction_length s2)
        else interrupt.rip_adjust_
      if 0 < rip_adjust then
        (set_entry_instruction_length s2 (rip_adjust.toNat % 2 ^ 32), step2.2)
      else (s2, step2.2)
    else (s2, step2.2)
  else (s1, true)

/-- `vcpu::exit_interrupt_info`, translated from the source. The C++ local
`interrupt_info result;` is default-constructed; its unassigned members are
modelled as `error_code_ = 0` and `rip_adjust_ = -1` (no claim depends on
the defaults). -/
def exit_interrupt_info (s : vcpu) : interrupt_info_t :=
  let result : interrupt_info_t :=
    { info_ := exit_interruption_info s, error_code_ := 0, rip_adjust_ := -1 }
  if vmx.interrupt_info_valid result.info_ = true then
    let result1 :=
      if vmx.interrupt_info_error_code_valid result.info_ = true then
        { result with error_code_ := exit_interruption_error_code s }
      else result
    { result1 with rip_adjust_ := castInt32 (exit_instruction_length s) }
  else result

-- ## guest state

def guest_cr0_shadow (s : vcpu) : Nat :=
  vmx.vmread s.vmcs Field.ctrl_cr0_read_shadow

def set_guest_cr0_shadow (s : vcpu) (v : Nat) : vcpu :=
  { s with vmcs := vmx.vmwrite Field.ctrl_cr0_read_shadow v s.vmcs }

def guest_cr0 (s : vcpu) : Nat :=
  vmx.vmread s.vmcs Field.guest_cr0

def set_guest_cr0 (s : vcpu) (v : Nat) : vcpu :=
  { s with vmcs := vmx.vmwrite Field.guest_cr0 v s.vmcs }

def guest_cr3 (s : vcpu) : Nat :=
  vmx.vmread s.vmcs Field.guest_cr3

def set_guest_cr3 (s : vcpu) (v : Nat) : vcpu :=
  { s with vmcs := vmx.vmwrite Field.guest_cr3 v s.vmcs }

def guest_cr4_shadow (s : vcpu) : Nat :=
  vmx.vmread s.vmcs Field.ctrl_cr4_read_shadow

def set_guest_cr4_shadow (s : vcpu) (v : Nat) : vcpu :=
  { s with vmcs := vmx.vmwrite Field.ctrl_cr4_read_shadow v s.vmcs }

def guest_cr4 (s : vcpu) : Nat :=
  vmx.vmread s.vmcs Field.guest_cr4

def set_guest_cr4 (s : vcpu) (v : Nat) : vcpu :=
  { s with vmcs := vmx.vmwrite Field.guest_cr4 v s.vmcs }

def guest_dr7 (s : vcpu) : Nat :=
  vmx.vmread s.vmcs Field.guest_dr7

def set_guest_dr7 (s : vcpu) (v : Nat) : vcpu :=
  { s with vmcs := vmx.vmwrite Field.guest_dr7 v s.vmcs }

def guest_debugctl (s : vcpu) : Nat :=
  vmx.vmread s.vmcs Field.guest_debugctl

def set_guest_debugctl (s : vcpu) (v : Nat) : vcpu :=
  { s with vmcs := vmx.vmwrite Field.guest_debugctl v s.vmcs }

def guest_rsp (s : vcpu) : Nat :=
  vmx.vmread s.vmcs Field.guest_rsp

def set_guest_rsp (s : vcpu) (v : Nat) : vcpu :=
  { s with vmcs := vmx.vmwrite Field.guest_rsp v s.vmcs }

def guest_rip (s : vcpu) : Nat :=
  vmx.vmread s.vmcs Field.guest_rip

def set_guest_rip (s : vcpu) (v : Nat) : vcpu :=
  { s with vmcs := vmx.vmwrite Field.guest_rip v s.vmcs }

def guest_rflags (s : vcpu) : Nat :=
  vmx.vmread s.vmcs Field.guest_rflags

def set_guest_rflags (s : vcpu) (v : Nat) : vcpu :=
  { s with vmcs := vmx.vmwrite Field.guest_rflags v s.vmcs }

def guest_gdtr (s : vcpu) : gdtr_t :=
  { base_address := vmx.vmread s.vmcs Field.guest_gdtr_base,
     limit := vmx.vmread s.vmcs Field.guest_gdtr_limit }

def set_guest_gdtr (s : vcpu) (v : gdtr_t) : vcpu :=
  let m1 := vmx.vmwrite Field.guest_gdtr_base v.base_address s.vmcs
  let m2 := vmx.vmwrite Field.guest_gdtr_limit v.limit m1
  { s with vmcs := m2 }

def guest_idtr (s : vcpu) : gdtr_t :=
  { base_address := vmx.vmread s.vmcs Field.guest_idtr_base,
     limit := vmx.vmread s.vmcs Field.guest_idtr_limit }

def set_guest_idtr (s : vcpu) (v : gdtr_t) : vcpu :=
  let m1 := vmx.vmwrite Field.guest_idtr_base v.base_address s.vmcs
  let m2 := vmx.vmwrite Field.guest_idtr_limit v.limit m1
  { s with vmcs := m2 }

def guest_cs (s : vcpu) : seg_t :=
  { base_address := vmx.vmread s.vmcs Field.guest_cs_base,
     limit := vmx.vmread s.vmcs Field.guest_cs_limit,
     access := vmx.vmread s.vmcs Field.guest_cs_access_rights,
     selector := vmx.vmread s.vmcs Field.guest_cs_selector }

def set_guest_cs (s : vcpu) (v : seg_t) : vcpu :=
  let m1 := vmx.vmwrite Field.guest_cs_base v.base_address s.vmcs
  let m2 := vmx.vmwrite Field.guest_cs_limit v.limit m1
  let m3 := vmx.vmwrite Field.guest_cs_access_rights v.access m2
  let m4 := vmx.vmwrite Field.guest_cs_selector v.selector m3
  { s with vmcs := m4 }

def guest_ds (s : vcpu) : seg_t :=
  { base_address := vmx.vmread s.vmcs Field.guest_ds_base,
     limit := vmx.vmread s.vmcs Field.guest_ds_limit,
     access := vmx.vmread s.vmcs Field.guest_ds_access_rights,
     selector := vmx.vmread s.vmcs Field.guest_ds_selector }

def set_guest_ds (s : vcpu) (v : seg_t) : vcpu :=
  let m1 := vmx.vmwrite Field.guest_ds_base v.base_address s.vmcs
  let m2 := vmx.vmwrite Field.guest_ds_limit v.limit m1
  let m3 := vmx.vmwrite Field.guest_ds_access_rights v.access m2
  let m4 := vmx.vmwrite Field.guest_ds_selector v.selector m3
  { s with vmcs := m4 }

def guest_es (s : vcpu) : seg_t :=
  { base_address := vmx.vmread s.vmcs Field.guest_es_base,
     limit := vmx.vmread s.vmcs Field.guest_es_limit,
     access := vmx.vmread s.vmcs Field.guest_es_access_rights,
     selector := vmx.vmread s.vmcs Field.guest_es_selector }

def set_guest_es (s : vcpu) (v : seg_t) : vcpu :=
  let m1 := vmx.vmwrite Field.guest_es_base v.base_address s.vmcs
  let m2 := vmx.vmwrite Field.guest_es_limit v.limit m1
  let m3 := vmx.vmwrite Field.guest_es_access_rights v.access m2
  let m4 := vmx.vmwrite Field.guest_es_selector v.selector m3
  { s with vmcs := m4 }

def guest_fs (s : vcpu) : seg_t :=
  { base_address := vmx.vmread s.vmcs Field.guest_fs_base,
     limit := vmx.vmread s.vmcs Field.guest_fs_limit,
     access := vmx.vmread s.vmcs Field.guest_fs_access_rights,
     selector := vmx.vmread s.vmcs Field.guest_fs_selector }

def set_guest_fs (s : vcpu) (v : seg_t) : vcpu :=
  let m1 := vmx.vmwrite Field.guest_fs_base v.base_address s.vmcs
  let m2 := vmx.vmwrite Field.guest_fs_limit v.limit m1
  let m3 := vmx.vmwrite Field.guest_fs_access_rights v.access m2
  let m4 := vmx.vmwrite Field.guest_fs_selector v.selector m3
  { s with vmcs := m4 }

def guest_gs (s : vcpu) : seg_t :=
  { base_address := vmx.vmread s.vmcs Field.guest_gs_base,
     limit := vmx.vmread s.vmcs Field.guest_gs_limit,
     access := vmx.vmread s.vmcs Field.guest_gs_access_rights,
     selector := vmx.vmread s.vmcs Field.guest_gs_selector }

def set_guest_gs (s : vcpu) (v : seg_t) : vcpu :=
  let m1 := vmx.vmwrite Field.guest_gs_base v.base_address s.vmcs
  let m2 := vmx.vmwrite Field.guest_gs_limit v.limit m1
  let m3 := vmx.vmwrite Field.guest_gs_access_rights v.access m2
  let m4 := vmx.vmwrite Field.guest_gs_selector v.selector m3
  { s with vmcs := m4 }

def guest_ss (s : vcpu) : seg_t :=
  { base_address := vmx.vmread s.vmcs Field.guest_ss_base,
     limit := vmx.vmread s.vmcs Field.guest_ss_limit,
     access := vmx.vmread s.vmcs Field.guest_ss_access_rights,
     selector := vmx.vmread s.vmcs Field.guest_ss_selector }

def set_guest_ss (s : vcpu) (v : seg_t) : vcpu :=
  let m1 := vmx.vmwrite Field.guest_ss_base v.base_address s.vmcs
  let m2 := vmx.vmwrite Field.guest_ss_limit v.limit m1
  let m3 := vmx.vmwrite Field.guest_ss_access_rights v.access m2
  let m4 := vmx.vmwrite Field.guest_ss_selector v.selector m3
  { s with vmcs := m4 }

def guest_tr (s : vcpu) : seg_t :=
  { base_address := vmx.vmread s.vmcs Field.guest_tr_base,
     limit := vmx.vmread s.vmcs Field.guest_tr_limit,
     access := vmx.vmread s.vmcs Field.guest_tr_access_rights,
     selector := vmx.vmread s.vmcs Field.guest_tr_selector }

def set_guest_tr (s : vcpu) (v : seg_t) : vcpu :=
  let m1 := vmx.vmwrite Field.guest_tr_base v.base_address s.vmcs
  let m2 := vmx.vmwrite Field.guest_tr_limit v.limit m1
  let m3 := vmx.vmwrite Field.guest_tr_access_rights v.access m2
  let m4 := vmx.vmwrite Field.guest_tr_selector v.selector m3
  { s with vmcs := m4 }

def guest_ldtr (s : vcpu) : seg_t :=
  { base_address := vmx.vmread s.vmcs Field.guest_ldtr_base,
     limit := vmx.vmread s.vmcs Field.guest_ldtr_limit,
     access := vmx.vmread s.vmcs Field.guest_ldtr_access_rights,
     selector := vmx.vmread s.vmcs Field.guest_ldtr_selector }

def set_guest_ldtr (s : vcpu) (v : seg_t) : vcpu :=
  let m1 := vmx.vmwrite Field.guest_ldtr_base v.base_address s.vmcs
  let m2 := vmx.vmwrite Field.guest_ldtr_limit v.limit m1
  let m3 := vmx.vmwrite Field.guest_ldtr_access_rights v.access m2
  let m4 := vmx.vmwrite Field.guest_ldtr_selector v.selector m3
  { s with vmcs := m4 }

-- ## host state

def host_cr0 (s : vcpu) : Nat :=
  vmx.vmread s.vmcs Field.host_cr0

def set_host_cr0 (s : vcpu) (v : Nat) : vcpu :=
  { s with vmcs := vmx.vmwrite Field.host_cr0 v s.vmcs }

def host_cr3 (s : vcpu) : Nat :=
  vmx.vmread s.vmcs Field.host_cr3

def set_host_cr3 (s : vcpu) (v : Nat) : vcpu :=
  { s with vmcs := vmx.vmwrite Field.host_cr3 v s.vmcs }

def host_cr4 (s : vcpu) : Nat :=
  vmx.vmread s.vmcs Field.host_cr4

def set_host_cr4 (s : vcpu) (v : Nat) : vcpu :=
  { s with vmcs := vmx.vmwrite Field.host_cr4 v s.vmcs }

def host_rsp (s : vcpu) : Nat :=
  vmx.vmread s.vmcs Field.host_rsp

def set_host_rsp (s : vcpu) (v : Nat) : vcpu :=
  { s with vmcs := vmx.vmwrite Field.host_rsp v s.vmcs }

def host_rip (s : vcpu) : Nat :=
  vmx.vmread s.vmcs Field.host_rip

def set_host_rip (s : vcpu) (v : Nat) : vcpu :=
  { s with vmcs := vmx.vmwrite Field.host_rip v s.vmcs }

/-- The host GDTR accessor pair reads and writes the base only (the
source leaves the limit member of the returned value unassigned). -/
def host_gdtr (s : vcpu) : Nat :=
  vmx.vmread s.vmcs Field.host_gdtr_base

def set_host_gdtr (s : vcpu) (v : gdtr_t) : vcpu :=
  { s with vmcs := vmx.vmwrite Field.host_gdtr_base v.base_address s.vmcs }

/-- The host IDTR accessor pair reads and writes the base only (the
source leaves the limit member of the returned value unassigned). -/
def host_idtr (s : vcpu) : Nat :=
  vmx.vmread s.vmcs Field.host_idtr_base

def set_host_idtr (s : vcpu) (v : gdtr_t) : vcpu :=
  { s with vmcs := vmx.vmwrite Field.host_idtr_base v.base_address s.vmcs }

/-- The host CS getter reads the selector only (the source leaves the
other members of the returned value unassigned). -/
def host_cs (s : vcpu) : Nat :=
  vmx.vmread s.vmcs Field.host_cs_selector

def set_host_cs (s : vcpu) (v : seg_t) : vcpu :=
  { s with vmcs := vmx.vmwrite Field.host_cs_selector (selector_index v.selector * 8) s.vmcs }

/-- The host DS getter reads the selector only (the source leaves the
other members of the returned value unassigned). -/
def host_ds (s : vcpu) : Nat :=
  vmx.vmread s.vmcs Field.host_ds_selector

def set_host_ds (s : vcpu) (v : seg_t) : vcpu :=
  { s with vmcs := vmx.vmwrite Field.host_ds_selector (selector_index v.selector * 8) s.vmcs }

/-- The host ES getter reads the selector only (the source leaves the
other members of the returned value unassigned). -/
def host_es (s : vcpu) : Nat :=
  vmx.vmread s.vmcs Field.host_es_selector

def set_host_es (s : vcpu) (v : seg_t) : vcpu :=
  { s with vmcs := vmx.vmwrite Field.host_es_selector (selector_index v.selector * 8) s.vmcs }

/-- The host SS getter reads the selector only (the source leaves the
other members of the returned value unassigned). -/
def host_ss (s : vcpu) : Nat :=
  vmx.vmread s.vmcs Field.host_ss_selector

def set_host_ss (s : vcpu) (v : seg_t) : vcpu :=
  { s with vmcs := vmx.vmwrite Field.host_ss_selector (selector_index v.selector * 8) s.vmcs }

/-- The host FS getter reads the selector and base (the source leaves
the other members of the returned value unassigned). -/
def host_fs (s : vcpu) : Nat × Nat :=
  (vmx.vmread s.vmcs Field.host_fs_selector, vmx.vmread s.vmcs Field.host_fs_base)

def set_host_fs (s : vcpu) (v : seg_t) : vcpu :=
  let m1 := vmx.vmwrite Field.host_fs_selector (selector_index v.selector * 8) s.vmcs
  let m2 := vmx.vmwrite Field.host_fs_base v.base_address m1
  { s with vmcs := m2 }

/-- The host GS getter reads the selector and base (the source leaves
the other members of the returned value unassigned). -/
def host_gs (s : vcpu) : Nat × Nat :=
  (vmx.vmread s.vmcs Field.host_gs_selector, vmx.vmread s.vmcs Field.host_gs_base)

def set_host_gs (s : vcpu) (v : seg_t) : vcpu :=
  let m1 := vmx.vmwrite Field.host_gs_selector (selector_index v.selector * 8) s.vmcs
  let m2 := vmx.vmwrite Field.host_gs_base v.base_address m1
  { s with vmcs := m2 }

/-- The host TR getter reads the selector and base (the source leaves
the other members of the returned value unassigned). -/
def host_tr (s : vcpu) : Nat × Nat :=
  (vmx.vmread s.vmcs Field.host_tr_selector, vmx.vmread s.vmcs Field.host_tr_base)

def set_host_tr (s : vcpu) (v : seg_t) : vcpu :=
  let m1 := vmx.vmwrite Field.host_tr_selector (selector_index v.selector * 8) s.vmcs
  let m2 := vmx.vmwrite Field.host_tr_base v.base_address m1
  { s with vmcs := m2 }

end vcpu

-- ## concrete instances used by witnesses and counterexamples

/-- A concrete virtual-CPU state: all VMCS fields zero, zeroed bitmaps. -/
def V0 : vcpu :=
  { vmcs := fun _ => 0
    msr_bitmap_ := { data := 0 }
    io_bitmap_ := { a := 0, b := 0 }
    suppress_rip_adjust_ := false
    msr_bitmap_pa := 4096
    io_bitmap_a_pa := 8192
    io_bitmap_b_pa := 12288 }

/-- A concrete state whose VM-exit instruction length is 3. -/
def V3 : vcpu :=
  { V0 with vmcs := fun f => if f = Field.vmexit_instruction_length then 3 else 0 }

/-- A concrete state reporting a valid exit event: interruption-information
word 0x80000B03 (valid, error code valid, hardware exception, vector 3),
error code 7, instruction length 2. -/
def VEXIT : vcpu :=
  { V0 with vmcs := fun f =>
      if f = Field.vmexit_interruption_info then 0x80000B03
      else if f = Field.vmexit_interruption_error_code then 7
      else if f = Field.vmexit_instruction_length then 2
      else 0 }

/-- Concrete capability masks: every group mandates bit 0 set and forbids
nothing (allowed0 = 1, allowed1 = 0xFFFFFFFF). -/
def CAPS0 : HwCaps :=
  { pinbased := { allowed0 := 1, allowed1 := 0xFFFFFFFF }
    procbased := { allowed0 := 1, allowed1 := 0xFFFFFFFF }
    entry_ctls := { allowed0 := 1, allowed1 := 0xFFFFFFFF }
    exit_ctls := { allowed0 := 1, allowed1 := 0xFFFFFFFF } }

/-- A valid page-fault hardware exception carrying error code 5
(word 0x80000B0E: valid, error-code-valid, type 3, vector 14). -/
def IPF : interrupt_info_t :=
  { info_ := 0x80000B0E, error_code_ := 5, rip_adjust_ := -1 }

/-- A valid double-fault hardware exception carrying error code 0
(word 0x80000B08: valid, error-code-valid, type 3, vector 8). -/
def IDF : interrupt_info_t :=
  { info_ := 0x80000B08, error_code_ := 0, rip_adjust_ := -1 }

/-- A valid divide-error hardware exception, no error code
(word 0x80000300: valid, type 3, vector 0). -/
def IDE : interrupt_info_t :=
  { info_ := 0x80000300, error_code_ := 0, rip_adjust_ := -1 }

/-- A valid software interrupt, vector 0x20, unspecified rip adjust
(word 0x80000420: valid, type 4, vector 32). -/
def ISW : interrupt_info_t :=
  { info_ := 0x80000420, error_code_ := 0, rip_adjust_ := -1 }

/-- A valid external interrupt, vector 0x30, explicit rip adjust 5
(word 0x80000030: valid, type 0, vector 48). -/
def IEXT : interrupt_info_t :=
  { info_ := 0x80000030, error_code_ := 0, rip_adjust_ := 5 }

/-- An invalid descriptor (valid bit clear, word 0x0000030E). -/
def IINV : interrupt_info_t :=
  { info_ := 0x0000030E, error_code_ := 9, rip_adjust_ := 4 }

-- ## helper lemmas

theorem castInt32_zero : castInt32 0 = 0 := by
  simp [castInt32]

theorem castInt32_of_lt {n : Nat} (h : n < 2 ^ 31) : castInt32 n = (n : Int) := by
  have h32 : n < 2 ^ 32 := lt_trans h (by norm_num)
  unfold castInt32
  rw [Nat.mod_eq_of_lt h32, if_pos h]

-- ## claims

/-- C1: for a valid hardware-exception descriptor, `inject` asserts that the
five error-code-mandatory vectors carry an error code and writes it; asserts
that double-fault and alignment-check carry an error code equal to zero and
writes it; and leaves the VM-entry error-code field unwritten for every other
hardware-exception vector. -/
theorem inject_hardware_exception_error_code (s : vcpu) (i : interrupt_info_t)
    (hvalid : i.valid = true)
    (htype : i.type = vmx.interrupt_type_hardware_exception) :
    ((i.vector = exception_vector.invalid_tss ∨
      i.vector = exception_vector.segment_not_present ∨
      i.vector = exception_vector.stack_segment_fault ∨
      i.vector = exception_vector.general_protection ∨
      i.vector = exception_vector.page_fault) →
        ((vcpu.inject s i).2 = true ↔ i.error_code_valid = true) ∧
        (vcpu.inject s i).1.vmcs Field.ctrl_vmentry_exception_error_code = i.error_code_) ∧
    ((i.vector = exception_vector.double_fault ∨
      i.vector = exception_vector.alignment_check) →
        ((vcpu.inject s i).2 = true ↔ (i.error_code_valid = true ∧ i.error_code_ = 0)) ∧
        (vcpu.inject s i).1.vmcs Field.ctrl_vmentry_exception_error_code = i.error_code_) ∧
    ((i.vector ≠ exception_vector.invalid_tss ∧
      i.vector ≠ exception_vector.segment_not_present ∧
      i.vector ≠ exception_vector.stack_segment_fault ∧
      i.vector ≠ exception_vector.general_protection ∧
      i.vector ≠ exception_vector.page_fault ∧
      i.vector ≠ exception_vector.double_fault ∧
      i.vector ≠ exception_vector.alignment_check) →
        (vcpu.inject s i).2 = true ∧
        (vcpu.inject s i).1.vmcs Field.ctrl_vmentry_exception_error_code
          = s.vmcs Field.ctrl_vmentry_exception_error_code) := by
  refine ⟨?_, ?_, ?_⟩
  · rintro (h | h | h | h | h) <;>
      simp [vcpu.inject, hvalid, htype, h, vcpu.set_entry_interruption_info,
        vcpu.set_entry_interruption_error_code, interrupt_info_t.error_code,
        vmx.vmwrite, vmx.vmread, vmx.interrupt_type_hardware_exception,
        vmx.interrupt_type_software, vmx.interrupt_type_privileged_exception,
        vmx.interrupt_type_software_exception, exception_vector.invalid_tss,
        exception_vector.segment_not_present, exception_vector.stack_segment_fault,
        exception_vector.general_protection, exception_vector.page_fault,
        exception_vector.double_fault, exception_vector.alignment_check]
  · rintro (h | h) <;>
      simp [vcpu.inject, hvalid, htype, h, vcpu.set_entry_interruption_info,
        vcpu.set_entry_interruption_error_code, interrupt_info_t.error_code,
        vmx.vmwrite, vmx.vmread, vmx.interrupt_type_hardware_exception,
        vmx.interrupt_type_software, vmx.interrupt_type_privileged_exception,
        vmx.interrupt_type_software_exception, exception_vector.invalid_tss,
        exception_vector.segment_not_present, exception_vector.stack_segment_fault,
        exception_vector.general_protection, exception_vector.page_fault,
        exception_vector.double_fault, exception_vector.alignment_check]
  · rintro ⟨h1, h2, h3, h4, h5, h6, h7⟩
    simp [vcpu.inject, hvalid, htype, h1, h2, h3, h4, h5, h6, h7,
      vcpu.set_entry_interruption_info, vcpu.set_entry_interruption_error_code,
      vmx.vmwrite, vmx.vmread, vmx.interrupt_type_hardware_exception,
      vmx.interrupt_type_software, vmx.interrupt_type_privileged_exception,
      vmx.interrupt_type_software_exception]

/-- C1 witness: evaluated at a page fault with error code 5, a double fault
with error code 0, and a divide error without error code, on the zero state. -/
theorem inject_hardware_exception_error_code_witness :
    (((vcpu.inject V0 IPF).2 = true ↔ IPF.error_code_valid = true) ∧
      (vcpu.inject V0 IPF).1.vmcs Field.ctrl_vmentry_exception_error_code = IPF.error_code_) ∧
    (((vcpu.inject V0 IDF).2 = true ↔ (IDF.error_code_valid = true ∧ IDF.error_code_ = 0)) ∧
      (vcpu.inject V0 IDF).1.vmcs Field.ctrl_vmentry_exception_error_code = IDF.error_code_) ∧
    ((vcpu.inject V0 IDE).2 = true ∧
      (vcpu.inject V0 IDE).1.vmcs Field.ctrl_vmentry_exception_error_code
        = V0.vmcs Field.ctrl_vmentry_exception_error_code) :=
  ⟨(inject_hardware_exception_error_code V0 IPF (by decide) (by decide)).1
      (by simp [IPF, interrupt_info_t.vector, vmx.interrupt_info_vector,
        exception_vector.page_fault]),
   (inject_hardware_exception_error_code V0 IDF (by decide) (by decide)).2.1
      (by simp [IDF, interrupt_info_t.vector, vmx.interrupt_info_vector,
        exception_vector.double_fault]),
   (inject_hardware_exception_error_code V0 IDE (by decide) (by decide)).2.2
      (by simp [IDE, interrupt_info_t.vector, vmx.interrupt_info_vector,
        exception_vector.invalid_tss, exception_vector.segment_not_present,
        exception_vector.stack_segment_fault, exception_vector.general_protection,
        exception_vector.page_fault, exception_vector.double_fault,
        exception_vector.alignment_check])⟩


/-- C2: for a valid software-class descriptor with unspecified rip adjust,
`inject` resolves the adjustment to the VM-exit instruction length read from
the exit record; a positive resolved length is written to the VM-entry
instruction-length field and a zero resolved length leaves it unwritten. -/
theorem inject_software_rip_adjust (s : vcpu) (i : interrupt_info_t)
    (hvalid : i.valid = true)
    (htype : i.type = vmx.interrupt_type_software ∨
             i.type = vmx.interrupt_type_privileged_exception ∨
             i.type = vmx.interrupt_type_software_exception)
    (hrip : i.rip_adjust_ = -1)
    (hlen : s.vmcs Field.vmexit_instruction_length < 2 ^ 31) :
    (vcpu.inject s i).2 = true ∧
    (0 < s.vmcs Field.vmexit_instruction_length →
      (vcpu.inject s i).1.vmcs Field.ctrl_vmentry_instruction_length
        = s.vmcs Field.vmexit_instruction_length) ∧
    (s.vmcs Field.vmexit_instruction_length = 0 →
      (vcpu.inject s i).1.vmcs Field.ctrl_vmentry_instruction_length
        = s.vmcs Field.ctrl_vmentry_instruction_length) := by
  have hlen32 : s.vmcs Field.vmexit_instruction_length < 4294967296 :=
    lt_trans hlen (by norm_num)
  rcases htype with h | h | h <;>
    by_cases h0 : s.vmcs Field.vmexit_instruction_length = 0 <;>
    simp [vcpu.inject, hvalid, h, hrip, h0, vcpu.set_entry_interruption_info,
      vcpu.set_entry_instruction_length, vcpu.exit_instruction_length,
      vmx.vmwrite, vmx.vmread, castInt32_of_lt hlen,
      vmx.interrupt_type_hardware_exception, vmx.interrupt_type_software,
      vmx.interrupt_type_privileged_exception, vmx.interrupt_type_software_exception,
      Nat.mod_eq_of_lt hlen32, Nat.pos_iff_ne_zero, castInt32_zero, hlen32]

/-- C2 witness: evaluated at a software interrupt with unspecified rip adjust
on a state whose exit instruction length is 3, and on one where it is 0. -/
theorem inject_software_rip_adjust_witness :
    ((vcpu.inject V3 ISW).2 = true ∧
      (vcpu.inject V3 ISW).1.vmcs Field.ctrl_vmentry_instruction_length
        = V3.vmcs Field.vmexit_instruction_length) ∧
    ((vcpu.inject V0 ISW).1.vmcs Field.ctrl_vmentry_instruction_length
        = V0.vmcs Field.ctrl_vmentry_instruction_length) :=
  ⟨⟨(inject_software_rip_adjust V3 ISW (by decide)
        (Or.inl (by decide)) (by decide) (by decide)).1,
    (inject_software_rip_adjust V3 ISW (by decide)
        (Or.inl (by decide)) (by decide) (by decide)).2.1 (by decide)⟩,
   (inject_software_rip_adjust V0 ISW (by decide)
        (Or.inl (by decide)) (by decide) (by decide)).2.2 (by decide)⟩

theorem inject_vmcs_len_frame (s : vcpu) (i : interrupt_info_t)
    (h4 : i.type ≠ vmx.interrupt_type_software)
    (h5 : i.type ≠ vmx.interrupt_type_privileged_exception)
    (h6 : i.type ≠ vmx.interrupt_type_software_exception) :
    (vcpu.inject s i).1.vmcs Field.ctrl_vmentry_instruction_length
      = s.vmcs Field.ctrl_vmentry_instruction_length := by
  have hns : ¬(i.type = vmx.interrupt_type_software ∨
      i.type = vmx.interrupt_type_privileged_exception ∨
      i.type = vmx.interrupt_type_software_exception) := by
    rintro (h | h | h)
    exacts [h4 h, h5 h, h6 h]
  simp only [vcpu.inject, hns, if_false]
  split_ifs <;>
    simp [vcpu.set_entry_interruption_info, vcpu.set_entry_interruption_error_code,
      vmx.vmwrite, vmx.vmread]

/-- C3: for descriptors of type external, non-maskable-interrupt,
hardware_exception or other_event, `inject` never writes the VM-entry
instruction-length field, whatever the descriptor's rip adjust. -/
theorem inject_never_writes_instruction_length (s : vcpu) (i : interrupt_info_t)
    (htype : i.type = vmx.interrupt_type_external ∨
             i.type = vmx.interrupt_type_nmi ∨
             i.type = vmx.interrupt_type_hardware_exception ∨
             i.type = vmx.interrupt_type_other_event) :
    (vcpu.inject s i).1.vmcs Field.ctrl_vmentry_instruction_length
      = s.vmcs Field.ctrl_vmentry_instruction_length := by
  have h4 : i.type ≠ vmx.interrupt_type_software := by
    rcases htype with h | h | h | h <;>
      simp [h, vmx.interrupt_type_external, vmx.interrupt_type_nmi,
        vmx.interrupt_type_hardware_exception, vmx.interrupt_type_other_event,
        vmx.interrupt_type_software]
  have h5 : i.type ≠ vmx.interrupt_type_privileged_exception := by
    rcases htype with h | h | h | h <;>
      simp [h, vmx.interrupt_type_external, vmx.interrupt_type_nmi,
        vmx.interrupt_type_hardware_exception, vmx.interrupt_type_other_event,
        vmx.interrupt_type_privileged_exception]
  have h6 : i.type ≠ vmx.interrupt_type_software_exception := by
    rcases htype with h | h | h | h <;>
      simp [h, vmx.interrupt_type_external, vmx.interrupt_type_nmi,
        vmx.interrupt_type_hardware_exception, vmx.interrupt_type_other_event,
        vmx.interrupt_type_software_exception]
  exact inject_vmcs_len_frame s i h4 h5 h6

/-- C3 witness: evaluated at an external interrupt carrying an explicit
rip adjust of 5, and at a hardware exception, on the zero state. -/
theorem inject_never_writes_instruction_length_witness :
    (vcpu.inject V0 IEXT).1.vmcs Field.ctrl_vmentry_instruction_length
        = V0.vmcs Field.ctrl_vmentry_instruction_length ∧
    (vcpu.inject V0 IPF).1.vmcs Field.ctrl_vmentry_instruction_length
        = V0.vmcs Field.ctrl_vmentry_instruction_length :=
  ⟨inject_never_writes_instruction_length V0 IEXT (Or.inl (by decide)),
   inject_never_writes_instruction_length V0 IPF (Or.inr (Or.inr (Or.inl (by decide))))⟩

/-- C9: `inject` always writes the VM-entry interruption-information field
from the descriptor, valid bit included; and for an invalid descriptor it
passes every contract check and changes no other VMCS field. -/
theorem inject_writes_interruption_info (s : vcpu) (i : interrupt_info_t) :
    (vcpu.inject s i).1.vmcs Field.ctrl_vmentry_interruption_info = i.info_ ∧
    (i.valid = false →
      (vcpu.inject s i).2 = true ∧
      ∀ f, f ≠ Field.ctrl_vmentry_interruption_info →
        (vcpu.inject s i).1.vmcs f = s.vmcs f) := by
  constructor
  · simp only [vcpu.inject]
    split_ifs <;>
      simp [vcpu.set_entry_interruption_info, vcpu.set_entry_interruption_error_code,
        vcpu.set_entry_instruction_length, vmx.vmwrite, vmx.vmread]
  · intro hv
    refine ⟨by simp [vcpu.inject, hv], fun f hf => ?_⟩
    simp [vcpu.inject, hv, vcpu.set_entry_interruption_info, vmx.vmwrite, hf]

/-- C9 witness: evaluated at a descriptor with the valid bit clear on the
zero state, checking the interruption-information write and that the
error-code and instruction-length fields stay unchanged. -/
theorem inject_writes_interruption_info_witness :
    (vcpu.inject V0 IINV).1.vmcs Field.ctrl_vmentry_interruption_info = IINV.info_ ∧
    (vcpu.inject V0 IINV).2 = true ∧
    (vcpu.inject V0 IINV).1.vmcs Field.ctrl_vmentry_exception_error_code
      = V0.vmcs Field.ctrl_vmentry_exception_error_code ∧
    (vcpu.inject V0 IINV).1.vmcs Field.ctrl_vmentry_instruction_length
      = V0.vmcs Field.ctrl_vmentry_instruction_length :=
  ⟨(inject_writes_interruption_info V0 IINV).1,
   ((inject_writes_interruption_info V0 IINV).2 (by decide)).1,
   ((inject_writes_interruption_info V0 IINV).2 (by decide)).2
     Field.ctrl_vmentry_exception_error_code (by decide),
   ((inject_writes_interruption_info V0 IINV).2 (by decide)).2
     Field.ctrl_vmentry_instruction_length (by decide)⟩

/-- C4: each of the four adjustable control-group setters writes the
capability-adjusted requested value, whose hardware-mandatory-1 bits are set
(whenever the capability masks are consistent at that bit) and whose
hardware-mandatory-0 bits are cleared; the secondary processor-based setter
writes the requested value unmodified. -/
theorem control_setters_adjust (caps : HwCaps) (s : vcpu) (v : Nat) :
    (vcpu.set_pin_based_controls caps s v).vmcs Field.ctrl_pin_based_vm_execution_controls
      = vmx.adjust caps.pinbased v ∧
    (vcpu.set_processor_based_controls caps s v).vmcs Field.ctrl_processor_based_vm_execution_controls
      = vmx.adjust caps.procbased v ∧
    (vcpu.set_vm_entry_controls caps s v).vmcs Field.ctrl_vmentry_controls
      = vmx.adjust caps.entry_ctls v ∧
    (vcpu.set_vm_exit_controls caps s v).vmcs Field.ctrl_vmexit_controls
      = vmx.adjust caps.exit_ctls v ∧
    (vcpu.set_processor_based_controls2 s v).vmcs Field.ctrl_secondary_processor_based_vm_execution_controls
      = v ∧
    (∀ cap : vmx.vmx_capability, ∀ j : Nat,
      (cap.allowed0.testBit j = true → cap.allowed1.testBit j = true →
        (vmx.adjust cap v).testBit j = true) ∧
      (cap.allowed1.testBit j = false → (vmx.adjust cap v).testBit j = false)) := by
  refine ⟨?_, ?_, ?_, ?_, ?_, ?_⟩
  · simp [vcpu.set_pin_based_controls, vmx.vmwrite]
  · simp [vcpu.set_processor_based_controls, vmx.vmwrite]
  · simp [vcpu.set_vm_entry_controls, vmx.vmwrite]
  · simp [vcpu.set_vm_exit_controls, vmx.vmwrite]
  · simp [vcpu.set_processor_based_controls2, vmx.vmwrite]
  · intro cap j
    constructor
    · intro h0 h1
      simp [vmx.adjust, Nat.testBit_land, Nat.testBit_lor, h0, h1]
    · intro h1
      simp [vmx.adjust, Nat.testBit_land, h1]

/-- C4 witness: evaluated at the concrete capability masks on the zero state
with requested value 0, including the mandatory-bit facts at bit 0 of the
pin-based masks. -/
theorem control_setters_adjust_witness :
    (vcpu.set_pin_based_controls CAPS0 V0 0).vmcs Field.ctrl_pin_based_vm_execution_controls
      = vmx.adjust CAPS0.pinbased 0 ∧
    (vcpu.set_processor_based_controls2 V0 0).vmcs Field.ctrl_secondary_processor_based_vm_execution_controls
      = 0 ∧
    (vmx.adjust CAPS0.pinbased 0).testBit 0 = true :=
  ⟨(control_setters_adjust CAPS0 V0 0).1,
   (control_setters_adjust CAPS0 V0 0).2.2.2.2.1,
   ((control_setters_adjust CAPS0 V0 0).2.2.2.2.2 CAPS0.pinbased 0).1
     (by decide) (by decide)⟩

/-- C5: installing an IO bitmap stores the value into the owned storage,
read-modify-writes the processor-based controls with the use-IO-bitmaps bit
set (so the bit reads back true whenever the capability mask allows it), and
writes the physical addresses of both halves of the owned bitmap into the
IO-bitmap-A and IO-bitmap-B address fields. -/
theorem io_bitmap_install (caps : HwCaps) (s : vcpu) (b : io_bitmap_t) :
    vcpu.io_bitmap (vcpu.set_io_bitmap caps s b) = b ∧
    (vcpu.set_io_bitmap caps s b).vmcs Field.ctrl_processor_based_vm_execution_controls
      = vmx.adjust caps.procbased
          (s.vmcs Field.ctrl_processor_based_vm_execution_controls ||| 2 ^ use_io_bitmaps_bit) ∧
    (caps.procbased.allowed1.testBit use_io_bitmaps_bit = true →
      (vcpu.processor_based_controls (vcpu.set_io_bitmap caps s b)).testBit use_io_bitmaps_bit
        = true) ∧
    (vcpu.set_io_bitmap caps s b).vmcs Field.ctrl_io_bitmap_a_address = s.io_bitmap_a_pa ∧
    (vcpu.set_io_bitmap caps s b).vmcs Field.ctrl_io_bitmap_b_address = s.io_bitmap_b_pa := by
  refine ⟨rfl, ?_, ?_, rfl, rfl⟩
  · simp [vcpu.set_io_bitmap, vcpu.set_processor_based_controls,
      vcpu.processor_based_controls, vmx.vmwrite, vmx.vmread]
  · intro hcap
    simp [vcpu.set_io_bitmap, vcpu.set_processor_based_controls,
      vcpu.processor_based_controls, vmx.vmwrite, vmx.vmread, vmx.adjust,
      Nat.testBit_land, Nat.testBit_lor]
    exact hcap

/-- C5 witness: evaluated at the concrete capability masks, the zero state
and the bitmap (1, 2), checking storage, the read-back bit, and both
published addresses. -/
theorem io_bitmap_install_witness :
    vcpu.io_bitmap (vcpu.set_io_bitmap CAPS0 V0 (io_bitmap_t.mk 1 2)) = io_bitmap_t.mk 1 2 ∧
    (vcpu.processor_based_controls
        (vcpu.set_io_bitmap CAPS0 V0 (io_bitmap_t.mk 1 2))).testBit use_io_bitmaps_bit = true ∧
    (vcpu.set_io_bitmap CAPS0 V0 (io_bitmap_t.mk 1 2)).vmcs Field.ctrl_io_bitmap_a_address
      = V0.io_bitmap_a_pa ∧
    (vcpu.set_io_bitmap CAPS0 V0 (io_bitmap_t.mk 1 2)).vmcs Field.ctrl_io_bitmap_b_address
      = V0.io_bitmap_b_pa :=
  ⟨(io_bitmap_install CAPS0 V0 (io_bitmap_t.mk 1 2)).1,
   (io_bitmap_install CAPS0 V0 (io_bitmap_t.mk 1 2)).2.2.1 (by decide),
   (io_bitmap_install CAPS0 V0 (io_bitmap_t.mk 1 2)).2.2.2.1,
   (io_bitmap_install CAPS0 V0 (io_bitmap_t.mk 1 2)).2.2.2.2⟩

/-- C10: replacing the MSR bitmap copies the value into the owned storage
(returned by the getter), writes only the MSR-bitmap address field with the
physical address of the owned storage, changes no other VMCS field, and
leaves the IO bitmap and the suppression flag untouched. -/
theorem msr_bitmap_replace (s : vcpu) (b : msr_bitmap_t) :
    vcpu.msr_bitmap (vcpu.set_msr_bitmap s b) = b ∧
    (vcpu.set_msr_bitmap s b).vmcs Field.ctrl_msr_bitmap_address = s.msr_bitmap_pa ∧
    (∀ f, f ≠ Field.ctrl_msr_bitmap_address →
      (vcpu.set_msr_bitmap s b).vmcs f = s.vmcs f) ∧
    (vcpu.set_msr_bitmap s b).io_bitmap_ = s.io_bitmap_ ∧
    (vcpu.set_msr_bitmap s b).suppress_rip_adjust_ = s.suppress_rip_adjust_ := by
  refine ⟨rfl, rfl, ?_, rfl, rfl⟩
  intro f hf
  simp [vcpu.set_msr_bitmap, vmx.vmwrite, hf]

/-- C10 witness: evaluated at the zero state and bitmap contents 7, checking
the owned copy, the published address, and that the processor-based controls
field is untouched. -/
theorem msr_bitmap_replace_witness :
    vcpu.msr_bitmap (vcpu.set_msr_bitmap V0 (msr_bitmap_t.mk 7)) = msr_bitmap_t.mk 7 ∧
    (vcpu.set_msr_bitmap V0 (msr_bitmap_t.mk 7)).vmcs Field.ctrl_msr_bitmap_address
      = V0.msr_bitmap_pa ∧
    (vcpu.set_msr_bitmap V0 (msr_bitmap_t.mk 7)).vmcs Field.ctrl_processor_based_vm_execution_controls
      = V0.vmcs Field.ctrl_processor_based_vm_execution_controls :=
  ⟨(msr_bitmap_replace V0 (msr_bitmap_t.mk 7)).1,
   (msr_bitmap_replace V0 (msr_bitmap_t.mk 7)).2.1,
   (msr_bitmap_replace V0 (msr_bitmap_t.mk 7)).2.2.1
     Field.ctrl_processor_based_vm_execution_controls (by decide)⟩

/-- C6: when the VM-exit interruption-information field reports a valid
event, `exit_interrupt_info` returns a descriptor whose word, vector and
type are the raw reported values, whose error code is the reported exit
error code exactly when the error-code-valid flag is set (and the untouched
default otherwise), and whose rip adjust is the reported exit instruction
length. -/
theorem exit_interrupt_info_decode (s : vcpu)
    (hvalid : vmx.interrupt_info_valid (s.vmcs Field.vmexit_interruption_info) = true)
    (hlen : s.vmcs Field.vmexit_instruction_length < 2 ^ 31) :
    (vcpu.exit_interrupt_info s).info_ = s.vmcs Field.vmexit_interruption_info ∧
    (vcpu.exit_interrupt_info s).vector
      = vmx.interrupt_info_vector (s.vmcs Field.vmexit_interruption_info) ∧
    (vcpu.exit_interrupt_info s).type
      = vmx.interrupt_info_type (s.vmcs Field.vmexit_interruption_info) ∧
    (vmx.interrupt_info_error_code_valid (s.vmcs Field.vmexit_interruption_info) = true →
      (vcpu.exit_interrupt_info s).error_code_
        = s.vmcs Field.vmexit_interruption_error_code) ∧
    (vmx.interrupt_info_error_code_valid (s.vmcs Field.vmexit_interruption_info) = false →
      (vcpu.exit_interrupt_info s).error_code_ = 0) ∧
    (vcpu.exit_interrupt_info s).rip_adjust_
      = (s.vmcs Field.vmexit_instruction_length : Int) := by
  cases hec : vmx.interrupt_info_error_code_valid (s.vmcs Field.vmexit_interruption_info) <;>
    simp [vcpu.exit_interrupt_info, vcpu.exit_interruption_info,
      vcpu.exit_interruption_error_code, vcpu.exit_instruction_length,
      vmx.vmread, hvalid, hec, interrupt_info_t.vector, interrupt_info_t.type,
      castInt32_of_lt hlen]

/-- C6 witness: evaluated at the concrete exit state reporting word
0x80000B03, error code 7 and instruction length 2. -/
theorem exit_interrupt_info_decode_witness :
    (vcpu.exit_interrupt_info VEXIT).info_ = VEXIT.vmcs Field.vmexit_interruption_info ∧
    (vcpu.exit_interrupt_info VEXIT).vector
      = vmx.interrupt_info_vector (VEXIT.vmcs Field.vmexit_interruption_info) ∧
    (vcpu.exit_interrupt_info VEXIT).error_code_
      = VEXIT.vmcs Field.vmexit_interruption_error_code ∧
    (vcpu.exit_interrupt_info VEXIT).rip_adjust_
      = (VEXIT.vmcs Field.vmexit_instruction_length : Int) :=
  ⟨(exit_interrupt_info_decode VEXIT (by decide) (by decide)).1,
   (exit_interrupt_info_decode VEXIT (by decide) (by decide)).2.1,
   (exit_interrupt_info_decode VEXIT (by decide) (by decide)).2.2.2.1 (by decide),
   (exit_interrupt_info_decode VEXIT (by decide) (by decide)).2.2.2.2.2⟩

/-- C8: every host segment setter writes the selector field as the caller's
selector index times 8 — a flat GDT selector whose table-indicator bit and
privilege bits are zero (the written value is divisible by 8). -/
theorem host_segment_selector_canonical (s : vcpu) (g : seg_t) :
    (vcpu.set_host_cs s g).vmcs Field.host_cs_selector = selector_index g.selector * 8 ∧
    (vcpu.set_host_ds s g).vmcs Field.host_ds_selector = selector_index g.selector * 8 ∧
    (vcpu.set_host_es s g).vmcs Field.host_es_selector = selector_index g.selector * 8 ∧
    (vcpu.set_host_ss s g).vmcs Field.host_ss_selector = selector_index g.selector * 8 ∧
    (vcpu.set_host_fs s g).vmcs Field.host_fs_selector = selector_index g.selector * 8 ∧
    (vcpu.set_host_gs s g).vmcs Field.host_gs_selector = selector_index g.selector * 8 ∧
    (vcpu.set_host_tr s g).vmcs Field.host_tr_selector = selector_index g.selector * 8 ∧
    (selector_index g.selector * 8) % 8 = 0 := by
  refine ⟨?_, ?_, ?_, ?_, ?_, ?_, ?_, Nat.mul_mod_left _ 8⟩ <;>
    simp [vcpu.set_host_cs, vcpu.set_host_ds, vcpu.set_host_es, vcpu.set_host_ss,
      vcpu.set_host_fs, vcpu.set_host_gs, vcpu.set_host_tr, vmx.vmwrite]

/-- A concrete segment value used by witnesses. -/
def G0 : seg_t := { selector := 0x23, base_address := 100, limit := 200, access := 300 }

/-- A concrete descriptor-table value used by witnesses. -/
def DT0 : gdtr_t := { base_address := 1000, limit := 64 }

/-- A concrete MSR-bitmap value used by witnesses. -/
def MB0 : msr_bitmap_t := { data := 9 }

/-- C7 counterexample: the pin-based control accessor pair is not in the
claim's exception list, yet set(0) followed by get() returns the
capability-adjusted value 1, not 0, under capability masks whose bit 0 is
hardware-mandatory-1. -/
theorem accessor_round_trip_counterexample :
    vcpu.pin_based_controls (vcpu.set_pin_based_controls CAPS0 V0 0) ≠ 0 := by
  decide

/-- C7 (amended): set(v) followed by get() returns v for every control,
guest and host field accessor pair, except that (a) the four adjustable
control groups read back the capability-adjusted value adjust(v) (equal to v
only when v already satisfies the hardware-mandatory bits), (b) host segment
setters read back the canonicalized selector index*8, and (c) installing an
IO bitmap makes the processor-based controls' use-IO-bitmaps bit read back
true (when the capability mask allows that bit). -/
theorem accessor_round_trip (caps : HwCaps) (s : vcpu) (v : Nat) (g : seg_t)
    (dt : gdtr_t) (mb : msr_bitmap_t) (ib : io_bitmap_t) :
    (caps.procbased.allowed1.testBit use_io_bitmaps_bit = true →
      (vcpu.processor_based_controls (vcpu.set_io_bitmap caps s ib)).testBit
        use_io_bitmaps_bit = true) ∧
    vcpu.pin_based_controls (vcpu.set_pin_based_controls caps s v)
      = vmx.adjust caps.pinbased v ∧
    vcpu.processor_based_controls (vcpu.set_processor_based_controls caps s v)
      = vmx.adjust caps.procbased v ∧
    vcpu.vm_entry_controls (vcpu.set_vm_entry_controls caps s v)
      = vmx.adjust caps.entry_ctls v ∧
    vcpu.vm_exit_controls (vcpu.set_vm_exit_controls caps s v)
      = vmx.adjust caps.exit_ctls v ∧
    vcpu.processor_based_controls2 (vcpu.set_processor_based_controls2 s v) = v ∧
    vcpu.exception_bitmap (vcpu.set_exception_bitmap s v) = v ∧
    vcpu.pagefault_error_code_mask (vcpu.set_pagefault_error_code_mask s v) = v ∧
    vcpu.pagefault_error_code_match (vcpu.set_pagefault_error_code_match s v) = v ∧
    vcpu.entry_instruction_length (vcpu.set_entry_instruction_length s v) = v ∧
    vcpu.entry_interruption_info (vcpu.set_entry_interruption_info s v) = v ∧
    vcpu.entry_interruption_error_code (vcpu.set_entry_interruption_error_code s v) = v ∧
    vcpu.msr_bitmap (vcpu.set_msr_bitmap s mb) = mb ∧
    vcpu.io_bitmap (vcpu.set_io_bitmap caps s ib) = ib ∧
    vcpu.guest_cr0_shadow (vcpu.set_guest_cr0_shadow s v) = v ∧
    vcpu.guest_cr0 (vcpu.set_guest_cr0 s v) = v ∧
    vcpu.guest_cr3 (vcpu.set_guest_cr3 s v) = v ∧
    vcpu.guest_cr4_shadow (vcpu.set_guest_cr4_shadow s v) = v ∧
    vcpu.guest_cr4 (vcpu.set_guest_cr4 s v) = v ∧
    vcpu.guest_dr7 (vcpu.set_guest_dr7 s v) = v ∧
    vcpu.guest_debugctl (vcpu.set_guest_debugctl s v) = v ∧
    vcpu.guest_rsp (vcpu.set_guest_rsp s v) = v ∧
    vcpu.guest_rip (vcpu.set_guest_rip s v) = v ∧
    vcpu.guest_rflags (vcpu.set_guest_rflags s v) = v ∧
    vcpu.guest_gdtr (vcpu.set_guest_gdtr s dt) = dt ∧
    vcpu.guest_idtr (vcpu.set_guest_idtr s dt) = dt ∧
    vcpu.guest_cs (vcpu.set_guest_cs s g) = g ∧
    vcpu.guest_ds (vcpu.set_guest_ds s g) = g ∧
    vcpu.guest_es (vcpu.set_guest_es s g) = g ∧
    vcpu.guest_fs (vcpu.set_guest_fs s g) = g ∧
    vcpu.guest_gs (vcpu.set_guest_gs s g) = g ∧
    vcpu.guest_ss (vcpu.set_guest_ss s g) = g ∧
    vcpu.guest_tr (vcpu.set_guest_tr s g) = g ∧
    vcpu.guest_ldtr (vcpu.set_guest_ldtr s g) = g ∧
    vcpu.host_cr0 (vcpu.set_host_cr0 s v) = v ∧
    vcpu.host_cr3 (vcpu.set_host_cr3 s v) = v ∧
    vcpu.host_cr4 (vcpu.set_host_cr4 s v) = v ∧
    vcpu.host_rsp (vcpu.set_host_rsp s v) = v ∧
    vcpu.host_rip (vcpu.set_host_rip s v) = v ∧
    vcpu.host_gdtr (vcpu.set_host_gdtr s dt) = dt.base_address ∧
    vcpu.host_idtr (vcpu.set_host_idtr s dt) = dt.base_address ∧
    vcpu.host_cs (vcpu.set_host_cs s g) = selector_index g.selector * 8 ∧
    vcpu.host_ds (vcpu.set_host_ds s g) = selector_index g.selector * 8 ∧
    vcpu.host_es (vcpu.set_host_es s g) = selector_index g.selector * 8 ∧
    vcpu.host_ss (vcpu.set_host_ss s g) = selector_index g.selector * 8 ∧
    vcpu.host_fs (vcpu.set_host_fs s g) = (selector_index g.selector * 8, g.base_address) ∧
    vcpu.host_gs (vcpu.set_host_gs s g) = (selector_index g.selector * 8, g.base_address) ∧
    vcpu.host_tr (vcpu.set_host_tr s g) = (selector_index g.selector * 8, g.base_address) := by
  refine ⟨?_, rfl, rfl, rfl, rfl, rfl, rfl, rfl, rfl, rfl, rfl, rfl, rfl, rfl,
    rfl, rfl, rfl, rfl, rfl, rfl, rfl, rfl, rfl, rfl, rfl, rfl, rfl, rfl, rfl,
    rfl, rfl, rfl, rfl, rfl, rfl, rfl, rfl, rfl, rfl, rfl, rfl, rfl, rfl, rfl,
    rfl, rfl, rfl, rfl⟩
  intro hcap
  simp [vcpu.set_io_bitmap, vcpu.set_processor_based_controls,
    vcpu.processor_based_controls, vmx.vmwrite, vmx.vmread, vmx.adjust,
    Nat.testBit_land, Nat.testBit_lor]
  exact hcap

/-- C7 witness: evaluated at the concrete capability masks, states and
values, checking the IO-bitmap read-back bit and the adjusted pin-based
round trip. -/
theorem accessor_round_trip_witness :
    (vcpu.processor_based_controls
        (vcpu.set_io_bitmap CAPS0 V0 (io_bitmap_t.mk 3 4))).testBit use_io_bitmaps_bit = true ∧
    vcpu.pin_based_controls (vcpu.set_pin_based_controls CAPS0 V0 5)
      = vmx.adjust CAPS0.pinbased 5 ∧
    vcpu.guest_rip (vcpu.set_guest_rip V0 5) = 5 ∧
    vcpu.guest_cs (vcpu.set_guest_cs V0 G0) = G0 :=
  ⟨(accessor_round_trip CAPS0 V0 5 G0 DT0 MB0 (io_bitmap_t.mk 3 4)).1 (by decide),
   (accessor_round_trip CAPS0 V0 5 G0 DT0 MB0 (io_bitmap_t.mk 3 4)).2.1,
   (accessor_round_trip CAPS0 V0 5 G0 DT0 MB0 (io_bitmap_t.mk 3 4)).2.2.2.2.2.2.2.2.2.2.2.2.2.2.2.2.2.2.2.2.2.2.2.1,
   (accessor_round_trip CAPS0 V0 5 G0 DT0 MB0 (io_bitmap_t.mk 3 4)).2.2.2.2.2.2.2.2.2.2.2.2.2.2.2.2.2.2.2.2.2.2.2.2.2.2.1⟩

end HvppVmcs
